import Mathlib

/-!
Verification of the window-attachment engine of dotline-winstick.

The embedding translates, from the TypeScript source:
  - src/types/windowAttach.ts   : the data model (Geometry, AttachState, ...)
  - src/main/windowAttach.ts    : WindowAttachService (attach / detach /
    followFocused, the geometry-change and focus-poll handlers, the
    overlay bounds/visibility writers)
  - the X11 provider file       : X11Provider.watchGeometry (the per-tick
    edge-triggered diffing body)

Modelling conventions:
  - The system runs on a single JS event loop; every timer callback and
    every operation body runs to completion atomically.  Operations and
    ticks are therefore pure functions on an explicit machine state.
  - Subprocess results (getGeometry / getActiveWindow) are passed in as
    parameters of type Option _, mirroring the provider which maps every
    execution or parse failure to null.
  - Writes to the Electron overlay window are recorded as a list of
    OverlayOp events, so that claims about which writes occur (bounds,
    show, hide) can be stated over the emitted trace.
  - clearInterval stops future ticks of a timer but does not abort the
    continuation of an async callback that is already awaiting a
    subprocess result; such a continuation is modelled by running the
    interval body without the liveness guard (geomResolveStale below).
-/

namespace WinStick

/-- Geometry from src/types/windowAttach.ts: absolute screen rectangle. -/
structure Geometry where
  x : Int
  y : Int
  width : Int
  height : Int
deriving DecidableEq, Repr

/-- Geometry plus mapped flag, the X11Geometry of the provider
(Geometry and mapped: boolean). -/
structure MappedGeometry where
  x : Int
  y : Int
  width : Int
  height : Int
  mapped : Bool
deriving DecidableEq, Repr

/-- The four geometry fields of a MappedGeometry, as built at the start of
the onChange handler (x, y, width, height). -/
def geomOf (g : MappedGeometry) : Geometry :=
  { x := g.x, y := g.y, width := g.width, height := g.height }

/-- AttachMode from src/types/windowAttach.ts. -/
inductive AttachMode where
  | detached
  | attached
  | follow
deriving DecidableEq, Repr

/-- AttachState from src/types/windowAttach.ts. -/
structure AttachState where
  mode : AttachMode
  targetId : Option Nat
  lastGeometry : Option Geometry
deriving DecidableEq, Repr

/-- The state value assigned on every detach path:
mode detached, targetId null, lastGeometry null. -/
def detachedState : AttachState :=
  { mode := AttachMode.detached, targetId := none, lastGeometry := none }

/-- The Electron overlay BrowserWindow, as far as the engine observes it:
its current bounds (getBounds / setBounds) and visibility
(isVisible / showInactive / hide). -/
structure Overlay where
  bounds : Geometry
  visible : Bool
deriving DecidableEq, Repr

/-- One write issued to the overlay window.  assertAttrs stands for the
setAlwaysOnTop / setVisibleOnAllWorkspaces / setIgnoreMouseEvents triple
that the code always re-asserts together right after a setBounds. -/
inductive OverlayOp where
  | setBounds (g : Geometry)
  | assertAttrs
  | showInactive
  | hide
deriving DecidableEq, Repr

/-- Count of setBounds writes in an emitted trace. -/
def countSetBounds : List OverlayOp → Nat
  | [] => 0
  | OverlayOp.setBounds _ :: rest => countSetBounds rest + 1
  | OverlayOp.assertAttrs :: rest => countSetBounds rest
  | OverlayOp.showInactive :: rest => countSetBounds rest
  | OverlayOp.hide :: rest => countSetBounds rest

/-- WindowAttachService.applyOverlayBounds: hide when not mapped; when
mapped, write bounds only if they differ from the current ones, re-assert
attributes and show if hidden; when bounds already match, only ensure
visibility.  The null-overlay early return is handled at the call sites. -/
def applyOverlayBounds (ov : Overlay) (g : Geometry) (mapped : Bool) :
    Overlay × List OverlayOp :=
  if !mapped then
    if ov.visible then ({ ov with visible := false }, [OverlayOp.hide])
    else (ov, [])
  else
    let b := ov.bounds
    if b.x != g.x || b.y != g.y || b.width != g.width || b.height != g.height then
      ({ bounds := g, visible := true },
        [OverlayOp.setBounds g, OverlayOp.assertAttrs] ++
          (if !ov.visible then [OverlayOp.showInactive] else []))
    else
      if !ov.visible && mapped then
        ({ ov with visible := true }, [OverlayOp.showInactive])
      else (ov, [])

/-- WindowAttachService.syncOverlayVisibility body, over the two mutable
flags lastMapped and lastActive: shouldShow is their conjunction; show if
hidden when it holds, hide if visible when it does not.  The null-overlay
early return is handled at the call sites. -/
def syncOverlayVisibility (lastMapped lastActive : Bool) (ov : Overlay) :
    Overlay × List OverlayOp :=
  let shouldShow := lastMapped && lastActive
  if shouldShow then
    if !ov.visible then ({ ov with visible := true }, [OverlayOp.showInactive])
    else (ov, [])
  else
    if ov.visible then ({ ov with visible := false }, [OverlayOp.hide])
    else (ov, [])

/-- WindowAttachService.restoreOverlayBounds: set bounds to the pre-attach
snapshot when one exists, else to the primary display bounds; re-assert
attributes; show if hidden.  The null-overlay early return is handled at
the call sites. -/
def restoreOverlayBounds (pre : Option Geometry) (display : Geometry)
    (ov : Overlay) : Overlay × List OverlayOp :=
  let target :=
    match pre with
    | some b => b
    | none => display
  ({ bounds := target, visible := true },
    [OverlayOp.setBounds target, OverlayOp.assertAttrs] ++
      (if !ov.visible then [OverlayOp.showInactive] else []))

/-- The edge-trigger test of X11Provider.watchGeometry: fire when there is
no previous emission or any of x, y, width, height, mapped differs. -/
def mgChanged (last : Option MappedGeometry) (g : MappedGeometry) : Bool :=
  match last with
  | none => true
  | some l =>
      g.x != l.x || g.y != l.y || g.width != l.width ||
        g.height != l.height || g.mapped != l.mapped

/-- One tick of the X11Provider.watchGeometry interval body, decoupled from
the callbacks: given the closure-local last emission and the poll result,
return the new last emission, the argument passed to onChange if it fires,
and whether onMissing fires. -/
def watchGeometryStep (last : Option MappedGeometry)
    (poll : Option MappedGeometry) :
    Option MappedGeometry × Option MappedGeometry × Bool :=
  match poll with
  | none => (last, none, true)
  | some g =>
      if mgChanged last g then (some g, some g, false)
      else (last, none, false)

/-- Fold of watchGeometryStep over a list of poll results, counting the
onChange and onMissing firings. -/
def watchRun (last : Option MappedGeometry)
    (polls : List (Option MappedGeometry)) :
    Option MappedGeometry × Nat × Nat :=
  match polls with
  | [] => (last, 0, 0)
  | p :: rest =>
      let (last1, emit, miss) := watchGeometryStep last p
      let (lastN, changes, misses) := watchRun last1 rest
      (lastN, (if emit.isSome then 1 else 0) + changes,
        (if miss then 1 else 0) + misses)

/-- The mutable fields of WindowAttachService, together with the
closure-local state of the currently live watchers.  The stopWatch /
stopFollow / stopVisibilityWatch cancel functions are modelled by the
liveness flags watchLive / followLive / visLive (a flag is true exactly
while the corresponding interval is scheduled); watchLast is the
closure-local last emission of the live geometry watcher, followLastActive
the closure-local lastActive of the live follow loop, and visTarget the
windowId captured by the live visibility watchdog.  enabled covers the
isEnabled() test (the provider is constructed iff enabled). -/
structure Service where
  enabled : Bool
  st : AttachState
  watchLive : Bool
  followLive : Bool
  visLive : Bool
  preAttachBounds : Option Geometry
  lastMapped : Bool
  lastActive : Bool
  watchLast : Option MappedGeometry
  followLastActive : Option Nat
  visTarget : Nat
deriving DecidableEq, Repr

/-- The whole machine: the service, the overlay window returned by
getOverlayWindow (none when there is no overlay window), and the primary
display bounds used by restoreOverlayBounds. -/
structure Sys where
  svc : Service
  overlay : Option Overlay
  display : Geometry
deriving DecidableEq, Repr

/-- WindowAttachService.stopAll: call and null out each of the three
cancel functions; calling a cancel function clears the interval, so all
three liveness flags drop. -/
def stopAllS (s : Service) : Service :=
  { s with watchLive := false, followLive := false, visLive := false }

/-- The onChange callback installed by attach: store the four geometry
fields into state.lastGeometry, record lastMapped, run applyOverlayBounds
and then syncOverlayVisibility. -/
def onChangeHandler (s : Sys) (g : MappedGeometry) : Sys × List OverlayOp :=
  let svc :=
    { s.svc with
        st := { s.svc.st with lastGeometry := some (geomOf g) },
        lastMapped := g.mapped }
  match s.overlay with
  | none => ({ s with svc := svc }, [])
  | some ov =>
      let r1 := applyOverlayBounds ov (geomOf g) g.mapped
      let r2 := syncOverlayVisibility svc.lastMapped svc.lastActive r1.1
      ({ s with svc := svc, overlay := some r2.1 }, r1.2 ++ r2.2)

/-- The onMissing callback installed by attach: clear lastMapped and hide
the overlay if it is visible; mode, targetId and lastGeometry stay. -/
def onMissingHandler (s : Sys) : Sys × List OverlayOp :=
  let svc := { s.svc with lastMapped := false }
  match s.overlay with
  | none => ({ s with svc := svc }, [])
  | some ov =>
      if ov.visible then
        ({ s with svc := svc, overlay := some { ov with visible := false } },
          [OverlayOp.hide])
      else ({ s with svc := svc }, [])

/-- The full interval body of watchGeometry, run against a given
closure-local last emission: dispatch onMissing / onChange according to
watchGeometryStep and return the updated closure-local last. -/
def watcherBody (s : Sys) (last : Option MappedGeometry)
    (poll : Option MappedGeometry) :
    Sys × Option MappedGeometry × List OverlayOp :=
  let r := watchGeometryStep last poll
  if r.2.2 then
    let m := onMissingHandler s
    (m.1, r.1, m.2)
  else
    match r.2.1 with
    | some g =>
        let c := onChangeHandler s g
        (c.1, r.1, c.2)
    | none => (s, r.1, [])

/-- A scheduled tick of the live geometry watcher: fires only while the
interval is scheduled; reads and writes the live closure-local last. -/
def geomTick (s : Sys) (poll : Option MappedGeometry) : Sys × List OverlayOp :=
  if s.svc.watchLive then
    let r := watcherBody s s.svc.watchLast poll
    ({ r.1 with svc := { r.1.svc with watchLast := r.2.1 } }, r.2.2)
  else (s, [])

/-- The continuation of a geometry poll that was already awaiting its
subprocess result when the watcher was cancelled: clearInterval prevents
future ticks but does not abort this continuation, which still runs the
interval body (with the cancelled closure's own last emission) against the
current service state. -/
def geomResolveStale (s : Sys) (staleLast : Option MappedGeometry)
    (poll : Option MappedGeometry) : Sys × List OverlayOp :=
  let r := watcherBody s staleLast poll
  (r.1, r.2.2)

/-- A scheduled tick of the visibility watchdog installed by attach:
lastActive := (active === windowId) for the captured windowId, then
syncOverlayVisibility. -/
def visTick (s : Sys) (active : Option Nat) : Sys × List OverlayOp :=
  if s.svc.visLive then
    let svc := { s.svc with lastActive := active == some s.svc.visTarget }
    match s.overlay with
    | none => ({ s with svc := svc }, [])
    | some ov =>
        let r := syncOverlayVisibility svc.lastMapped svc.lastActive ov
        ({ s with svc := svc, overlay := some r.1 }, r.2)
  else (s, [])

/-- WindowAttachService.attach: fail when disabled or when there is no
overlay window; snapshot the overlay bounds when currently detached; stop
all watchers; set state attached with lastGeometry null; start a fresh
geometry watcher (closure-local last = null) and a fresh visibility
watchdog capturing windowId. -/
def attach (s : Sys) (id : Nat) : Sys × List OverlayOp × Bool :=
  if s.svc.enabled = false then (s, [], false)
  else
    match s.overlay with
    | none => (s, [], false)
    | some ov =>
        let svc0 :=
          if s.svc.st.mode = AttachMode.detached then
            { s.svc with preAttachBounds := some ov.bounds }
          else s.svc
        let svc1 := stopAllS svc0
        let svc2 :=
          { svc1 with
              st := { mode := AttachMode.attached, targetId := some id,
                      lastGeometry := none },
              watchLive := true, watchLast := none,
              visLive := true, visTarget := id }
        ({ s with svc := svc2 }, [], true)

/-- One tick of the follow loop installed by followFocused(true): skip when
getActiveWindow yields null or 0; when the id differs from the
closure-local lastActive, record it, call attach(id) and force mode back
to follow. -/
def followTick (s : Sys) (active : Option Nat) : Sys × List OverlayOp :=
  if s.svc.followLive then
    match active with
    | none => (s, [])
    | some id =>
        if id = 0 then (s, [])
        else if s.svc.followLastActive = some id then (s, [])
        else
          let s1 := { s with svc := { s.svc with followLastActive := some id } }
          let r := attach s1 id
          let s3 :=
            { r.1 with svc :=
                { r.1.svc with st := { r.1.svc.st with mode := AttachMode.follow } } }
          (s3, r.2.1)
  else (s, [])

/-- WindowAttachService.detach: when disabled, only force the detached
state; otherwise stop all watchers, set the detached state and restore the
overlay bounds. -/
def detach (s : Sys) : Sys × List OverlayOp × Bool :=
  if s.svc.enabled = false then
    ({ s with svc := { s.svc with st := detachedState } }, [], true)
  else
    let svc := { stopAllS s.svc with st := detachedState }
    let s1 := { s with svc := svc }
    match s1.overlay with
    | none => (s1, [], true)
    | some ov =>
        let r := restoreOverlayBounds svc.preAttachBounds s1.display ov
        ({ s1 with overlay := some r.1 }, r.2, true)

/-- WindowAttachService.followFocused: fail when disabled; stop all
watchers; with enable=false, set the detached state and restore bounds
(the detach-equivalent path); with enable=true, set mode follow with no
target, start the follow interval with a fresh closure-local lastActive,
and run the immediate first tick against the current active window. -/
def followFocused (s : Sys) (enable : Bool) (active : Option Nat) :
    Sys × List OverlayOp × Bool :=
  if s.svc.enabled = false then (s, [], false)
  else
    let svc := stopAllS s.svc
    if enable = false then
      let svc1 := { svc with st := detachedState }
      let s1 := { s with svc := svc1 }
      match s1.overlay with
      | none => (s1, [], true)
      | some ov =>
          let r := restoreOverlayBounds svc1.preAttachBounds s1.display ov
          ({ s1 with overlay := some r.1 }, r.2, true)
    else
      let svc1 :=
        { svc with
            st := { mode := AttachMode.follow, targetId := none,
                    lastGeometry := none },
            followLive := true, followLastActive := none }
      let s1 := { s with svc := svc1 }
      let r := followTick s1 active
      (r.1, r.2, true)

/-- Visibility of the overlay window of a machine state (false when there
is no overlay window). -/
def sysVisible (s : Sys) : Bool :=
  match s.overlay with
  | some ov => ov.visible
  | none => false

/-! Concrete sample states used by counterexamples and witnesses. -/

/-- Primary display bounds used in the sample machine states. -/
def sampleDisplay : Geometry := { x := 0, y := 0, width := 1920, height := 1080 }

/-- Overlay bounds before any attach in the sample machine states. -/
def samplePre : Geometry := { x := 0, y := 0, width := 800, height := 600 }

/-- A mapped target geometry. -/
def sampleG0 : MappedGeometry :=
  { x := 10, y := 20, width := 300, height := 200, mapped := true }

/-- The same target geometry moved one pixel right. -/
def sampleG1 : MappedGeometry :=
  { x := 11, y := 20, width := 300, height := 200, mapped := true }

/-- An enabled service attached to window 7, overlay glued to sampleG0,
target mapped and focused, both watchers live. -/
def sampleAttached : Sys :=
  { svc := { enabled := true,
             st := { mode := AttachMode.attached, targetId := some 7,
                     lastGeometry := some (geomOf sampleG0) },
             watchLive := true, followLive := false, visLive := true,
             preAttachBounds := some samplePre,
             lastMapped := true, lastActive := true,
             watchLast := some sampleG0,
             followLastActive := none, visTarget := 7 },
    overlay := some { bounds := geomOf sampleG0, visible := true },
    display := sampleDisplay }

/-- Like sampleAttached but the target window is not the focused one. -/
def sampleUnfocused : Sys :=
  { svc := { enabled := true,
             st := { mode := AttachMode.attached, targetId := some 7,
                     lastGeometry := some (geomOf sampleG0) },
             watchLive := true, followLive := false, visLive := true,
             preAttachBounds := some samplePre,
             lastMapped := true, lastActive := false,
             watchLast := some sampleG0,
             followLastActive := none, visTarget := 7 },
    overlay := some { bounds := geomOf sampleG0, visible := false },
    display := sampleDisplay }

/-- A freshly constructed enabled service: detached, no watcher live. -/
def sampleDetachedEnabled : Sys :=
  { svc := { enabled := true, st := detachedState,
             watchLive := false, followLive := false, visLive := false,
             preAttachBounds := none,
             lastMapped := false, lastActive := false,
             watchLast := none, followLastActive := none, visTarget := 0 },
    overlay := some { bounds := samplePre, visible := true },
    display := sampleDisplay }

/-- A freshly constructed service whose provider is disabled (non-X11
session). -/
def sampleDisabled : Sys :=
  { svc := { enabled := false, st := detachedState,
             watchLive := false, followLive := false, visLive := false,
             preAttachBounds := none,
             lastMapped := false, lastActive := false,
             watchLast := none, followLastActive := none, visTarget := 0 },
    overlay := some { bounds := samplePre, visible := true },
    display := sampleDisplay }

/-! Supporting lemmas for the edge-triggered watcher. -/

lemma mgChanged_self (g : MappedGeometry) : mgChanged (some g) g = false := by
  simp [mgChanged]

lemma mgChanged_eq_false (last : Option MappedGeometry) (g : MappedGeometry)
    (h : mgChanged last g = false) : last = some g := by
  cases last with
  | none => simp [mgChanged] at h
  | some l =>
      simp only [mgChanged, Bool.or_eq_false_iff, bne_eq_false_iff_eq] at h
      obtain ⟨⟨⟨⟨h1, h2⟩, h3⟩, h4⟩, h5⟩ := h
      cases g; cases l
      simp_all

lemma watchRun_replicate_same (n : Nat) (g : MappedGeometry) :
    (watchRun (some g) (List.replicate n (some g))).2.1 = 0 := by
  induction n with
  | zero => rfl
  | succ m ih =>
      simp only [List.replicate_succ, watchRun, watchGeometryStep,
        mgChanged_self, if_false, Bool.false_eq_true]
      simpa using ih

/-- C3.  The geometry watcher is edge-triggered: the first non-null poll
always fires onChange; a later non-null poll fires onChange exactly when
one of x, y, width, height, mapped differs from the previous emission; a
null poll fires onMissing and leaves the previous emission unchanged; and
n consecutive polls of one and the same value fire onChange at most once. -/
theorem c3_edge_triggered_watch :
    (∀ g : MappedGeometry,
      watchGeometryStep none (some g) = (some g, some g, false)) ∧
    (∀ (l g : MappedGeometry),
      ((watchGeometryStep (some l) (some g)).2.1.isSome = true ↔
        (g.x ≠ l.x ∨ g.y ≠ l.y ∨ g.width ≠ l.width ∨ g.height ≠ l.height ∨
          g.mapped ≠ l.mapped))) ∧
    (∀ last : Option MappedGeometry,
      watchGeometryStep last none = (last, none, true)) ∧
    (∀ (last : Option MappedGeometry) (g : MappedGeometry) (n : Nat),
      (watchRun last (List.replicate n (some g))).2.1 ≤ 1) := by
  refine ⟨?_, ?_, ?_, ?_⟩
  · intro g; rfl
  · intro l g
    constructor
    · intro h
      by_contra hne
      push_neg at hne
      obtain ⟨h1, h2, h3, h4, h5⟩ := hne
      simp [watchGeometryStep, mgChanged, h1, h2, h3, h4, h5] at h
    · intro h
      have hch : mgChanged (some l) g = true := by
        simp only [mgChanged, Bool.or_eq_true, bne_iff_ne]
        tauto
      simp [watchGeometryStep, hch]
  · intro last; rfl
  · intro last g n
    cases n with
    | zero => simp [watchRun]
    | succ m =>
        by_cases hch : mgChanged last g = true
        · simp only [List.replicate_succ, watchRun, watchGeometryStep, hch,
            if_true]
          simpa using watchRun_replicate_same m g
        · have hlast : last = some g :=
            mgChanged_eq_false last g (by simpa using hch)
          subst hlast
          have h0 := watchRun_replicate_same (m + 1) g
          omega

/-- C10.  A follow-loop tick whose active-window query yields null or the
id 0 is a no-op: no transition, no overlay write, the whole machine state
(including any live watchers) is retained. -/
theorem c10_follow_tick_null_or_zero_noop :
    ∀ s : Sys, followTick s none = (s, []) ∧ followTick s (some 0) = (s, []) := by
  intro s
  constructor
  · simp only [followTick]
    split <;> rfl
  · simp only [followTick]
    split <;> simp

/-! The AttachState invariant of the spec, together with the wiring facts
that make it inductive over the operations. -/

/-- The spec's AttachState invariant: a detached state carries no target
and no geometry, an attached state carries a target, and a recorded
geometry implies a target (only a poll of the current attachment records
one). -/
def StateInv (st : AttachState) : Prop :=
  (st.mode = AttachMode.detached → st.targetId = none ∧ st.lastGeometry = none) ∧
  (st.mode = AttachMode.attached → st.targetId ≠ none) ∧
  (st.lastGeometry ≠ none → st.targetId ≠ none)

instance (st : AttachState) : Decidable (StateInv st) := by
  unfold StateInv; infer_instance

/-- StateInv strengthened with the watcher-wiring facts that hold in every
reachable machine state: a live geometry watcher implies a target, and a
disabled provider implies no live watcher at all. -/
def SysInv (s : Sys) : Prop :=
  StateInv s.svc.st ∧
  (s.svc.watchLive = true → s.svc.st.targetId ≠ none) ∧
  (s.svc.enabled = false →
    s.svc.watchLive = false ∧ s.svc.followLive = false ∧ s.svc.visLive = false)

instance (s : Sys) : Decidable (SysInv s) := by
  unfold SysInv; infer_instance

/-- C5 (amended).  With the provider enabled, followFocused(false) is
observationally equivalent to detach(): the same machine state, the same
overlay writes and the same result true.  (With the provider disabled the
two differ; see the counterexample.) -/
theorem c5_followFocused_false_eq_detach_when_enabled :
    ∀ (s : Sys) (a : Option Nat), s.svc.enabled = true →
      followFocused s false a = detach s := by
  intro s a h
  simp [followFocused, detach, h]

/-- C5 witness: the equivalence at a concrete enabled attached state. -/
theorem c5_enabled_equivalence_witness :
    sampleAttached.svc.enabled = true ∧
    followFocused sampleAttached false none = detach sampleAttached :=
  ⟨by decide, c5_followFocused_false_eq_detach_when_enabled sampleAttached none (by decide)⟩

/-- C5 counterexample: with the provider disabled, followFocused(false)
returns false while detach() returns true, so the two operations are not
observationally equivalent from every engine state and it is not the case
that both return true. -/
theorem c5_counterexample_disabled_return :
    (followFocused sampleDisabled false none).2.2 = false ∧
    (detach sampleDisabled).2.2 = true := by
  constructor <;> rfl

/-- C4: the code at the failing input.  followFocused(true) observing
active window 5 attaches to it, but attach's stopAll invokes the stored
stopFollow cancel function, clearing the follow loop's own interval:
afterwards followLive is false, and the later change of the active window
to 9 is a tick of a dead timer, so no re-attach to 9 ever happens. -/
theorem c4_follow_loop_dead_after_first_attach :
    (followFocused sampleDetachedEnabled true (some 5)).2.2 = true ∧
    (followFocused sampleDetachedEnabled true (some 5)).1.svc.st =
      { mode := AttachMode.follow, targetId := some 5, lastGeometry := none } ∧
    (followFocused sampleDetachedEnabled true (some 5)).1.svc.followLive = false ∧
    followTick (followFocused sampleDetachedEnabled true (some 5)).1 (some 9) =
      ((followFocused sampleDetachedEnabled true (some 5)).1, []) := by
  refine ⟨rfl, by decide, by decide, ?_⟩
  simp [followTick]
  decide

/-- C1: the code at the failing input.  Cancelling the geometry watcher
(here via detach) does not discard a poll that is already in flight: its
continuation still runs, fires onChange against the detached service, and
issues a bounds write to the overlay after detach has returned. -/
theorem c1_stale_poll_callback_after_detach :
    (detach sampleAttached).2.2 = true ∧
    (geomResolveStale (detach sampleAttached).1 (some sampleG0)
        (some sampleG1)).2 ≠ [] ∧
    countSetBounds (geomResolveStale (detach sampleAttached).1 (some sampleG0)
        (some sampleG1)).2 = 1 ∧
    (geomResolveStale (detach sampleAttached).1 (some sampleG0)
        (some sampleG1)).1.svc.st.lastGeometry = some (geomOf sampleG1) := by
  refine ⟨rfl, ?_, by decide, by decide⟩
  decide

/-- C9 counterexample: the stale in-flight callback of C1 records a
geometry on the already detached state, yielding mode detached with
lastGeometry non-null: the AttachState invariant is broken by a watcher
callback that arrives after cancellation. -/
theorem c9_counterexample_stale_callback_breaks_invariant :
    StateInv (detach sampleAttached).1.svc.st ∧
    ¬ StateInv (geomResolveStale (detach sampleAttached).1 (some sampleG0)
        (some sampleG1)).1.svc.st := by
  constructor <;> decide

/-- C2.  Visibility truth table: a focus-poll tick ends with the overlay
visible iff lastMapped AND lastActive (with lastActive set to whether the
polled active id equals the watched target); a geometry-change tick that
fires ends with the overlay visible iff lastMapped AND lastActive (with
lastMapped set to the polled mapped flag and lastActive untouched); and a
missing-geometry tick ends with the overlay hidden and lastMapped false.
Since the visibility after each handler equals the conjunction of the two
flags, toggling either flag through its handler while the other is held
fixed changes visibility exactly when the conjunction changes value. -/
theorem c2_visibility_conjunction :
    (∀ (s : Sys) (active : Option Nat), s.overlay.isSome = true →
        s.svc.visLive = true →
      sysVisible (visTick s active).1 =
        ((visTick s active).1.svc.lastMapped &&
          (visTick s active).1.svc.lastActive) ∧
      (visTick s active).1.svc.lastMapped = s.svc.lastMapped ∧
      (visTick s active).1.svc.lastActive = (active == some s.svc.visTarget)) ∧
    (∀ (s : Sys) (g : MappedGeometry), s.overlay.isSome = true →
        s.svc.watchLive = true → mgChanged s.svc.watchLast g = true →
      sysVisible (geomTick s (some g)).1 =
        ((geomTick s (some g)).1.svc.lastMapped &&
          (geomTick s (some g)).1.svc.lastActive) ∧
      (geomTick s (some g)).1.svc.lastMapped = g.mapped ∧
      (geomTick s (some g)).1.svc.lastActive = s.svc.lastActive) ∧
    (∀ s : Sys, s.svc.watchLive = true →
      sysVisible (geomTick s none).1 = false ∧
      (geomTick s none).1.svc.lastMapped = false) := by
  refine ⟨?_, ?_, ?_⟩
  · intro s active hov hvis
    obtain ⟨ov, hov⟩ := Option.isSome_iff_exists.mp hov
    simp only [visTick, hvis, if_true, hov, syncOverlayVisibility, sysVisible]
    by_cases hm : s.svc.lastMapped = true <;>
      by_cases ha : (active == some s.svc.visTarget) = true <;>
      by_cases hv : ov.visible = true <;>
      simp_all
  · intro s g hov hw hch
    obtain ⟨ov, hov⟩ := Option.isSome_iff_exists.mp hov
    simp only [geomTick, hw, if_true, watcherBody, watchGeometryStep, hch,
      onChangeHandler, hov, applyOverlayBounds, syncOverlayVisibility,
      sysVisible, geomOf]
    by_cases hm : g.mapped = true <;>
      by_cases ha : s.svc.lastActive = true <;>
      by_cases hv : ov.visible = true <;>
      by_cases hd : (((¬ov.bounds.x = g.x ∨ ¬ov.bounds.y = g.y) ∨
        ¬ov.bounds.width = g.width) ∨ ¬ov.bounds.height = g.height) <;>
      simp_all
  · intro s hw
    simp only [geomTick, hw, if_true, watcherBody, watchGeometryStep,
      onMissingHandler]
    cases hov : s.overlay with
    | none => simp [sysVisible, hov]
    | some ov =>
        by_cases hv : ov.visible = true <;> simp_all [sysVisible]

/-- C2 witness: the focus-poll part of the truth table at a concrete
attached state polled with no active window. -/
theorem c2_visibility_conjunction_witness :
    sampleAttached.overlay.isSome = true ∧ sampleAttached.svc.visLive = true ∧
    sysVisible (visTick sampleAttached none).1 =
      ((visTick sampleAttached none).1.svc.lastMapped &&
        (visTick sampleAttached none).1.svc.lastActive) :=
  ⟨by decide, by decide,
    (c2_visibility_conjunction.1 sampleAttached none (by decide) (by decide)).1⟩

/-- C6.  The pre-attach snapshot is taken exactly on the detached-to-
attached edge: a successful attach from the detached mode records the
overlay's current bounds; an attach in any other mode leaves the recorded
snapshot untouched; and detach restores the overlay to exactly the
recorded bounds, falling back to the primary display bounds when no
snapshot exists. -/
theorem c6_preattach_snapshot_roundtrip :
    (∀ (s : Sys) (id : Nat) (ov : Overlay), s.svc.enabled = true →
        s.overlay = some ov → s.svc.st.mode = AttachMode.detached →
      (attach s id).2.2 = true ∧
      (attach s id).1.svc.preAttachBounds = some ov.bounds) ∧
    (∀ (s : Sys) (id : Nat), s.svc.st.mode ≠ AttachMode.detached →
      (attach s id).1.svc.preAttachBounds = s.svc.preAttachBounds) ∧
    (∀ (s : Sys) (ov : Overlay), s.svc.enabled = true → s.overlay = some ov →
      (detach s).1.overlay =
        some { bounds := s.svc.preAttachBounds.getD s.display,
               visible := true } ∧
      OverlayOp.setBounds (s.svc.preAttachBounds.getD s.display) ∈
        (detach s).2.1) := by
  refine ⟨?_, ?_, ?_⟩
  · intro s id ov hen hov hmode
    simp [attach, hen, hov, hmode, stopAllS]
  · intro s id hmode
    by_cases hen : s.svc.enabled = true
    · cases hov : s.overlay with
      | none => simp [attach, hen, hov]
      | some ov => simp [attach, hen, hov, hmode, stopAllS]
    · simp only [Bool.not_eq_true] at hen
      simp [attach, hen]
  · intro s ov hen hov
    cases hpre : s.svc.preAttachBounds with
    | none =>
        simp [detach, hen, hov, restoreOverlayBounds, hpre, stopAllS]
    | some b =>
        simp [detach, hen, hov, restoreOverlayBounds, hpre, stopAllS]

/-- C6 witness: the snapshot-and-restore round trip at concrete states. -/
theorem c6_preattach_snapshot_roundtrip_witness :
    sampleDetachedEnabled.svc.enabled = true ∧
    (attach sampleDetachedEnabled 7).1.svc.preAttachBounds =
      some samplePre :=
  ⟨by decide,
    by
      have h := (c6_preattach_snapshot_roundtrip.1 sampleDetachedEnabled 7
        { bounds := samplePre, visible := true } (by decide) (by decide)
        (by decide)).2
      simpa using h⟩

lemma countSetBounds_ite_show (c : Prop) [Decidable c] :
    countSetBounds (if c then [OverlayOp.showInactive] else []) = 0 := by
  split <;> rfl

/-- C7 (amended).  Two consecutive detach calls on an enabled engine with
an overlay yield the same machine state after the second call as after the
first, but each call issues its own bounds-restore write: two setBounds
writes in total (not at most one), both carrying the same restored
bounds. -/
theorem c7_detach_idempotent_two_writes :
    ∀ (s : Sys) (ov : Overlay), s.svc.enabled = true → s.overlay = some ov →
      (detach (detach s).1).1 = (detach s).1 ∧
      countSetBounds (detach s).2.1 = 1 ∧
      countSetBounds (detach (detach s).1).2.1 = 1 ∧
      OverlayOp.setBounds (s.svc.preAttachBounds.getD s.display) ∈
        (detach s).2.1 ∧
      OverlayOp.setBounds (s.svc.preAttachBounds.getD s.display) ∈
        (detach (detach s).1).2.1 := by
  intro s ov hen hov
  cases hpre : s.svc.preAttachBounds with
  | none =>
      simp [detach, hen, hov, restoreOverlayBounds, hpre, stopAllS,
        detachedState, countSetBounds, countSetBounds_ite_show]
  | some b =>
      simp [detach, hen, hov, restoreOverlayBounds, hpre, stopAllS,
        detachedState, countSetBounds, countSetBounds_ite_show]

/-- C7 witness: the amended statement at a concrete attached state. -/
theorem c7_detach_idempotent_two_writes_witness :
    sampleAttached.svc.enabled = true ∧
    countSetBounds (detach sampleAttached).2.1 = 1 ∧
    countSetBounds (detach (detach sampleAttached).1).2.1 = 1 :=
  ⟨by decide,
    (c7_detach_idempotent_two_writes sampleAttached
      { bounds := geomOf sampleG0, visible := true } (by decide)
      (by decide)).2.1,
    (c7_detach_idempotent_two_writes sampleAttached
      { bounds := geomOf sampleG0, visible := true } (by decide)
      (by decide)).2.2.1⟩

/-- C7 counterexample: across two consecutive detach calls the code issues
two bounds-restore writes, refuting the claim's bound of at most one. -/
theorem c7_counterexample_two_restore_writes :
    countSetBounds (detach sampleAttached).2.1 +
      countSetBounds (detach (detach sampleAttached).1).2.1 = 2 := by
  decide

/-- C8 (amended).  Focus-poll ticks and missing-geometry ticks never write
bounds, and a focus tick whose show condition is false ends hidden; but a
geometry-change tick writes bounds exactly when it fires with mapped=true
and a geometry different from the overlay's current bounds, regardless of
whether the target is focused — so the claim's clause that no bounds write
happens while the show condition is false fails for unfocused mapped
geometry changes. -/
theorem c8_bounds_write_characterization :
    (∀ (s : Sys) (active : Option Nat),
      countSetBounds (visTick s active).2 = 0) ∧
    (∀ s : Sys, countSetBounds (geomTick s none).2 = 0) ∧
    (∀ (s : Sys) (ov : Overlay) (g : MappedGeometry), s.overlay = some ov →
        s.svc.watchLive = true →
      (countSetBounds (geomTick s (some g)).2 ≠ 0 ↔
        (mgChanged s.svc.watchLast g = true ∧ g.mapped = true ∧
          (ov.bounds.x ≠ g.x ∨ ov.bounds.y ≠ g.y ∨
            ov.bounds.width ≠ g.width ∨ ov.bounds.height ≠ g.height)))) ∧
    (∀ (s : Sys) (active : Option Nat), s.svc.visLive = true →
      (s.svc.lastMapped && (active == some s.svc.visTarget)) = false →
      sysVisible (visTick s active).1 = false) := by
  refine ⟨?_, ?_, ?_, ?_⟩
  · intro s active
    simp only [visTick]
    split
    · cases hov : s.overlay with
      | none => simp [countSetBounds]
      | some ov =>
          simp only [hov, syncOverlayVisibility]
          split <;> split <;> simp [countSetBounds]
    · simp [countSetBounds]
  · intro s
    simp only [geomTick]
    split
    · simp only [watcherBody, watchGeometryStep, onMissingHandler]
      cases hov : s.overlay with
      | none => simp [countSetBounds]
      | some ov => by_cases hv : ov.visible = true <;> simp [hv, countSetBounds]
    · simp [countSetBounds]
  · intro s ov g hov hw
    simp only [geomTick, hw, if_true, watcherBody, watchGeometryStep]
    by_cases hch : mgChanged s.svc.watchLast g = true
    · simp only [hch, if_true, onChangeHandler, hov, applyOverlayBounds,
        syncOverlayVisibility, geomOf]
      by_cases hm : g.mapped = true <;>
        by_cases hv : ov.visible = true <;>
        by_cases ha : s.svc.lastActive = true <;>
        by_cases hd : (((¬ov.bounds.x = g.x ∨ ¬ov.bounds.y = g.y) ∨
          ¬ov.bounds.width = g.width) ∨ ¬ov.bounds.height = g.height) <;>
        simp_all [countSetBounds] <;> tauto
    · simp only [Bool.not_eq_true] at hch
      simp [hch, countSetBounds]
  · intro s active hvis hcond
    simp only [visTick, hvis, if_true]
    cases hov : s.overlay with
    | none => simp [sysVisible]
    | some ov =>
        simp only [syncOverlayVisibility, sysVisible]
        rw [show ({ s.svc with
              lastActive := active == some s.svc.visTarget } : Service).lastMapped
            = s.svc.lastMapped from rfl]
        simp only [hcond]
        split_ifs <;> simp_all

/-- C8 witness: on a state whose show condition is false the focus tick
issues no bounds write and ends hidden. -/
theorem c8_bounds_write_characterization_witness :
    countSetBounds (visTick sampleUnfocused none).2 = 0 ∧
    sysVisible (visTick sampleUnfocused none).1 = false :=
  ⟨c8_bounds_write_characterization.1 sampleUnfocused none,
    c8_bounds_write_characterization.2.2.2 sampleUnfocused none (by decide)
      (by decide)⟩

/-- C8 counterexample: with the target mapped but not focused (show
condition false), a geometry change still writes the overlay's bounds —
one setBounds is issued although the show condition is false before and
after the tick. -/
theorem c8_counterexample_write_while_unfocused :
    (sampleUnfocused.svc.lastMapped && sampleUnfocused.svc.lastActive)
        = false ∧
    countSetBounds (geomTick sampleUnfocused (some sampleG1)).2 = 1 ∧
    ((geomTick sampleUnfocused (some sampleG1)).1.svc.lastMapped &&
      (geomTick sampleUnfocused (some sampleG1)).1.svc.lastActive) = false := by
  decide

/-! Preservation of the invariant by each operation and live tick. -/

lemma sysInv_attach (s : Sys) (id : Nat) (h : SysInv s) :
    SysInv (attach s id).1 ∧
    ((attach s id).2.2 = true → (attach s id).1.svc.st.lastGeometry = none) := by
  obtain ⟨⟨en, ⟨mo, tid, lg⟩, wl, fl, vl, pre, lm, la, wlast, fla, vt⟩, sov, disp⟩ := s
  simp only [SysInv, StateInv] at h ⊢
  cases en <;> cases sov <;> cases mo <;> cases wl <;>
    (simp_all [attach, stopAllS]; try tauto)

lemma sysInv_detach (s : Sys) (h : SysInv s) : SysInv (detach s).1 := by
  obtain ⟨⟨en, ⟨mo, tid, lg⟩, wl, fl, vl, pre, lm, la, wlast, fla, vt⟩, sov, disp⟩ := s
  simp only [SysInv, StateInv] at h ⊢
  cases en <;> cases sov <;>
    simp_all [detach, stopAllS, detachedState]

lemma sysInv_visTick (s : Sys) (a : Option Nat) (h : SysInv s) :
    SysInv (visTick s a).1 := by
  simp only [visTick]
  split
  · cases hov : s.overlay with
    | none => exact h
    | some ov => exact h
  · exact h

lemma sysInv_geomTick (s : Sys) (p : Option MappedGeometry) (h : SysInv s) :
    SysInv (geomTick s p).1 := by
  obtain ⟨⟨en, ⟨mo, tid, lg⟩, wl, fl, vl, pre, lm, la, wlast, fla, vt⟩, sov, disp⟩ := s
  simp only [SysInv, StateInv] at h ⊢
  cases wl with
  | false => simpa [geomTick] using h
  | true =>
      cases p with
      | none =>
          rcases sov with _ | ⟨ob, ovis⟩
          · simp_all [geomTick, watcherBody, watchGeometryStep,
              onMissingHandler]
          · cases ovis <;>
              simp_all [geomTick, watcherBody, watchGeometryStep,
                onMissingHandler]
      | some g =>
          by_cases hch : mgChanged wlast g = true
          · cases mo <;> rcases sov with _ | ⟨ob, ovis⟩ <;>
              simp_all [geomTick, watcherBody, watchGeometryStep, hch,
                onChangeHandler] <;>
              tauto
          · have hch' : mgChanged wlast g = false := by
              cases hb : mgChanged wlast g <;> simp_all
            simp_all [geomTick, watcherBody, watchGeometryStep, hch']

lemma sysInv_followTick (s : Sys) (a : Option Nat) (h : SysInv s) :
    SysInv (followTick s a).1 := by
  cases a with
  | none =>
      simp only [followTick]
      split <;> exact h
  | some id =>
      simp only [followTick]
      split
      · by_cases h0 : id = 0
        · rw [if_pos h0]; exact h
        · rw [if_neg h0]
          by_cases hla : s.svc.followLastActive = some id
          · rw [if_pos hla]; exact h
          · rw [if_neg hla]
            have h1 : SysInv
                { s with svc := { s.svc with followLastActive := some id } } := h
            have h2 := (sysInv_attach
              { s with svc := { s.svc with followLastActive := some id } } id h1).1
            obtain ⟨⟨hd, hatt, hlg⟩, hwt, hen⟩ := h2
            exact ⟨⟨fun hm => absurd hm (by simp), fun hm => absurd hm (by simp),
              fun hne => hlg hne⟩, fun hwl => hwt hwl, fun he => hen he⟩
      · exact h

lemma sysInv_followFocused (s : Sys) (e : Bool) (a : Option Nat) (h : SysInv s) :
    SysInv (followFocused s e a).1 := by
  by_cases hen : s.svc.enabled = false
  · have hres : followFocused s e a = (s, [], false) := by
      simp [followFocused, hen]
    rw [hres]
    exact h
  · have hen' : s.svc.enabled = true := by
      cases hb : s.svc.enabled <;> simp_all
    cases e with
    | false =>
        cases hov : s.overlay with
        | none =>
            simp [followFocused, hen', hov, SysInv, StateInv, detachedState,
              stopAllS]
        | some ov =>
            simp [followFocused, hen', hov, SysInv, StateInv, detachedState,
              stopAllS]
    | true =>
        have h1 : SysInv
            { s with svc :=
                { stopAllS s.svc with
                    st := { mode := AttachMode.follow, targetId := none,
                            lastGeometry := none },
                    followLive := true, followLastActive := none } } := by
          refine ⟨⟨by simp, by simp, by simp⟩, by simp [stopAllS], ?_⟩
          intro he
          rw [show ({ stopAllS s.svc with
              st := { mode := AttachMode.follow, targetId := none,
                      lastGeometry := none },
              followLive := true,
              followLastActive := none } : Service).enabled
            = s.svc.enabled from rfl] at he
          exact absurd he hen
        have h2 := sysInv_followTick
          { s with svc :=
              { stopAllS s.svc with
                  st := { mode := AttachMode.follow, targetId := none,
                          lastGeometry := none },
                  followLive := true, followLastActive := none } } a h1
        simpa [followFocused, hen'] using h2

/-- C9 (amended).  Every operation (attach, detach, followFocused) and
every callback of a currently live watcher (geometry tick, visibility
tick, follow tick) preserves the AttachState invariant, and a successful
attach resets lastGeometry to null.  (The unamended claim — every watcher
callback — fails for the callback of a poll in flight at cancellation
time; see the counterexample.) -/
theorem c9_invariant_preserved_live :
    ∀ s : Sys, SysInv s →
      (∀ id : Nat, SysInv (attach s id).1 ∧
        ((attach s id).2.2 = true →
          (attach s id).1.svc.st.lastGeometry = none)) ∧
      SysInv (detach s).1 ∧
      (∀ (e : Bool) (a : Option Nat), SysInv (followFocused s e a).1) ∧
      (∀ p : Option MappedGeometry, SysInv (geomTick s p).1) ∧
      (∀ a : Option Nat, SysInv (visTick s a).1) ∧
      (∀ a : Option Nat, SysInv (followTick s a).1) :=
  fun s h =>
    ⟨fun id => sysInv_attach s id h, sysInv_detach s h,
      fun e a => sysInv_followFocused s e a h,
      fun p => sysInv_geomTick s p h,
      fun a => sysInv_visTick s a h,
      fun a => sysInv_followTick s a h⟩

/-- C9 witness: preservation applied at a concrete attached state. -/
theorem c9_invariant_preserved_live_witness :
    SysInv sampleAttached ∧ SysInv (detach sampleAttached).1 :=
  ⟨by decide, (c9_invariant_preserved_live sampleAttached (by decide)).2.1⟩

end WinStick
